import Mathlib

/-
  Verification development for the SolarFramework native renderer
  (src/RendererNative/renderer_api.cpp, ABI v3).

  The C++ module drives a Vulkan device: device/swapchain lifecycle,
  per-frame begin/draw/end, resize and recreation.  The shallow embedding
  below mirrors the C++ control flow over an explicit oracle (`Env`)
  describing the outcomes of the external Vulkan/Win32 calls (success or
  failure of each creation call, the client-area size reported by
  GetClientRect, the result of vkAcquireNextImageKHR, the image count of
  the new swapchain, the size reported by vkGetBufferMemoryRequirements).
  GPU handles are modelled as presence booleans, vectors of handles by
  their lengths or by lists of non-null flags, and 32-bit float values
  (vertex data, colors) by their opaque bit patterns as naturals: the code
  never computes with them, it only copies them.  Each operation also
  emits a trace of events (`Ev`): resource creations and destructions and
  the per-frame Vulkan commands, which lets us state resource-balance,
  teardown-order and command-recording properties.

  Return codes are Lean `Int` values matching c_api.h.
-/

def FM_OK : Int := 0
def FM_E_UNSPECIFIED : Int := -1
def FM_E_BADARGS : Int := -2
def FM_E_NOMEM : Int := -3
def FM_E_DEVICE : Int := -4
def FM_E_NOTREADY : Int := -5
def FM_E_OUTOFDATE : Int := -6

/-- GPU resources created/destroyed by the module.  Per-image views and
framebuffers carry their index; the command buffers are allocated and
freed as one block (`cmdBufs`).  The two shader modules are transient
(created and destroyed inside `create_lines_pipeline`). -/
inductive Res where
  | inst
  | surf
  | dev
  | cmdPool
  | semAcquire
  | semRender
  | fence
  | swapchain
  | view (i : Nat)
  | framebuffer (i : Nat)
  | cmdBufs
  | renderPass
  | pipeLayout
  | shaderVS
  | shaderFS
  | pipe
  | vbuf
  | vmem
deriving DecidableEq, Repr

/-- Component granularity used by the spec when it speaks of teardown
order ("staging buffer → pipeline → presentation chain → render pass →
synchronization primitives → command pool → surface → device →
instance"): all per-image chain objects belong to one component. -/
inductive Comp where
  | inst
  | surf
  | dev
  | cmdPool
  | semAcquire
  | semRender
  | fence
  | chain
  | renderPass
  | pipeline
  | vbuffer
deriving DecidableEq, Repr

/-- Maps each concrete resource to its spec-level component. -/
def compOf : Res → Comp
  | .inst => .inst
  | .surf => .surf
  | .dev => .dev
  | .cmdPool => .cmdPool
  | .semAcquire => .semAcquire
  | .semRender => .semRender
  | .fence => .fence
  | .swapchain => .chain
  | .view _ => .chain
  | .framebuffer _ => .chain
  | .cmdBufs => .chain
  | .renderPass => .renderPass
  | .pipeLayout => .pipeline
  | .shaderVS => .pipeline
  | .shaderFS => .pipeline
  | .pipe => .pipeline
  | .vbuf => .vbuffer
  | .vmem => .vbuffer

/-- Events emitted by the modelled operations: resource lifecycle plus the
Vulkan commands recorded or submitted per frame. -/
inductive Ev where
  | create (r : Res)
  | destroy (r : Res)
  | waitIdle
  | waitFence
  | resetFence
  | acquire
  | beginCmdBuf
  | beginRenderPass (clear : List Nat)
  | setViewport
  | setScissor
  | cmdBindPipeline
  | cmdBindVertexBuffers
  | cmdPushConstants (color : List Nat)
  | cmdDraw (vertexCount : Nat)
  | endRenderPass
  | endCmdBuf
  | queueSubmit
deriving DecidableEq, Repr

/-- Outcome of vkAcquireNextImageKHR, as the code distinguishes them. -/
inductive VkAcquireResult where
  | success (idx : Nat)
  | outOfDate
  | suboptimal
  | err
deriving DecidableEq, Repr

/-- The mutable renderer state: the `Device` struct of renderer_api.cpp.
Handles become presence booleans; `views`/`fbs` are lists of non-null
flags (the C++ vectors are resized first and filled by a loop that can
fail midway); `cbs` is the vector length, `cbsAlloc` whether the block
allocation succeeded; `mapped` holds the staging buffer's 32-bit words;
`color` the four color words; `vcap`/`vused` are byte counts. -/
structure Device where
  instanceH : Bool := false
  physH : Bool := false
  deviceH : Bool := false
  surfaceH : Bool := false
  swap : Bool := false
  extentW : Nat := 0
  extentH : Nat := 0
  images : Nat := 0
  views : List Bool := []
  fbs : List Bool := []
  fbsRp : Bool := false
  rp : Bool := false
  cmdPool : Bool := false
  cbs : Nat := 0
  cbsAlloc : Bool := false
  semAcquire : Bool := false
  semRender : Bool := false
  fence : Bool := false
  curImg : Nat := 0
  layout : Bool := false
  pipe : Bool := false
  vbuf : Bool := false
  vmem : Bool := false
  vcap : Nat := 0
  vused : Nat := 0
  mappedH : Bool := false
  mapped : List Nat := []
  color : List Nat := [0x3F59999A, 0x3F59999A, 0x3F59999A, 0x3F800000]
  verts_this_frame : Nat := 0
  pending_draw : Bool := false
  needs_recreate : Bool := false
  vsync : Bool := false
deriving DecidableEq, Repr

/-- Oracle for the outcomes of the external Vulkan/Win32 calls made during
one API call.  `clientW`/`clientH` is what GetClientRect reports;
`imgCount` what vkGetSwapchainImagesKHR reports; `viewFail`/`fbFail`/
`fbRebuildFail` give the first failing index of the corresponding
creation loop (ignored when out of range); `memSize` is the size reported
by vkGetBufferMemoryRequirements (Vulkan guarantees it is at least the
requested buffer size). -/
structure Env where
  clientW : Nat := 0
  clientH : Nat := 0
  vsync : Bool := false
  createInstanceOk : Bool := true
  createSurfaceOk : Bool := true
  physFound : Bool := true
  createDeviceOk : Bool := true
  createPoolOk : Bool := true
  createSemAcquireOk : Bool := true
  createSemRenderOk : Bool := true
  createFenceOk : Bool := true
  imgCount : Nat := 0
  createSwapOk : Bool := true
  viewFail : Option Nat := none
  fbFail : Option Nat := none
  allocCbsOk : Bool := true
  createRpOk : Bool := true
  fbRebuildFail : Option Nat := none
  layoutOk : Bool := true
  vsOk : Bool := true
  fsOk : Bool := true
  pipeOk : Bool := true
  bufOk : Bool := true
  memTypeFound : Bool := true
  allocOk : Bool := true
  bindOk : Bool := true
  mapOk : Bool := true
  memSize : Nat := 0
  acquireRes : VkAcquireResult := .err
deriving DecidableEq, Repr

/-- Trace of a loop `for (i, x) in xs: if x then emit (f i)`, used for the
destruction loops over the view/framebuffer vectors, which destroy the
non-null entries in forward index order. -/
def marksTrace (f : Nat → Ev) : Nat → List Bool → List Ev
  | _, [] => []
  | i, b :: rest => (if b then [f i] else []) ++ marksTrace f (i + 1) rest

/-- A loop failure index only matters when it is within the loop range. -/
def clampFail (o : Option Nat) (ic : Nat) : Option Nat :=
  match o with
  | some k => if k < ic then some k else none
  | none => none

/-- destroy_swapchain_objects: destroy framebuffers (forward order, non-null
only), clear views (likewise), clear images, free the command-buffer block
if the vector is nonempty, destroy the swapchain if present. -/
def destroy_swapchain_objects (d : Device) : Device × List Ev :=
  let tf := marksTrace (fun i => Ev.destroy (Res.framebuffer i)) 0 d.fbs
  let tv := marksTrace (fun i => Ev.destroy (Res.view i)) 0 d.views
  let tc : List Ev := if d.cbs ≠ 0 ∧ d.cbsAlloc then [Ev.destroy Res.cmdBufs] else []
  let ts : List Ev := if d.swap then [Ev.destroy Res.swapchain] else []
  ({ d with fbs := [], views := [], images := 0, cbs := 0, cbsAlloc := false,
            swap := false, fbsRp := false },
   tf ++ tv ++ tc ++ ts)

/-- create_swapchain_objects: re-query the client area (fail if zero),
create the swapchain, fetch the image count, then create one view and one
framebuffer per image (each loop can fail at an index, leaving earlier
entries non-null) and allocate the command-buffer block.  The framebuffers
are bound to whatever render pass currently exists (`d.rp`): during
initial device creation that is still null. -/
def create_swapchain_objects (env : Env) (d : Device) : Bool × Device × List Ev :=
  if env.clientW = 0 ∨ env.clientH = 0 then (false, d, [])
  else if env.createSwapOk = false then (false, d, [])
  else
    let ic := env.imgCount
    let d1 := { d with swap := true, extentW := env.clientW, extentH := env.clientH,
                       images := ic }
    let t1 : List Ev := [Ev.create Res.swapchain]
    match clampFail env.viewFail ic with
    | some k =>
        (false,
         { d1 with views := (List.range ic).map (fun i => decide (i < k)) },
         t1 ++ (List.range k).map (fun i => Ev.create (Res.view i)))
    | none =>
      let d2 := { d1 with views := List.replicate ic true }
      let t2 := t1 ++ (List.range ic).map (fun i => Ev.create (Res.view i))
      match clampFail env.fbFail ic with
      | some k =>
          (false,
           { d2 with fbs := (List.range ic).map (fun i => decide (i < k)), fbsRp := d.rp },
           t2 ++ (List.range k).map (fun i => Ev.create (Res.framebuffer i)))
      | none =>
        let d3 := { d2 with fbs := List.replicate ic true, fbsRp := d.rp }
        let t3 := t2 ++ (List.range ic).map (fun i => Ev.create (Res.framebuffer i))
        if env.allocCbsOk then
          (true, { d3 with cbs := ic, cbsAlloc := true }, t3 ++ [Ev.create Res.cmdBufs])
        else
          (false, { d3 with cbs := ic, cbsAlloc := false }, t3)

/-- recreate_swapchain: abort (before destroying anything) if the client
area is zero; otherwise wait for device idle, destroy the old chain
objects and build new ones; clear the recreate flag only on full success. -/
def recreate_swapchain (env : Env) (d : Device) : Bool × Device × List Ev :=
  if env.clientW = 0 ∨ env.clientH = 0 then (false, d, [])
  else
    let dp := destroy_swapchain_objects d
    match create_swapchain_objects env dp.1 with
    | (false, d2, t2) => (false, d2, [Ev.waitIdle] ++ dp.2 ++ t2)
    | (true, d2, t2) =>
        (true, { d2 with needs_recreate := false }, [Ev.waitIdle] ++ dp.2 ++ t2)

/-- resize_swapchain_impl: a zero dimension only sets the recreate flag and
returns OK; otherwise set the flag and attempt recreation immediately. -/
def resize_swapchain_impl (env : Env) (d : Device) (w hgt : Nat) : Int × Device × List Ev :=
  if w = 0 ∨ hgt = 0 then (FM_OK, { d with needs_recreate := true }, [])
  else
    let d1 := { d with needs_recreate := true }
    match recreate_swapchain env d1 with
    | (true, d2, t) => (FM_OK, d2, t)
    | (false, d2, t) => (FM_E_DEVICE, d2, t)

/-- Tail of begin_frame after the extent check and any recreation: wait on
and reset the frame fence, acquire the next image (staleness sets the
recreate flag and returns OUTOFDATE before any recording), then begin the
command buffer and render pass and set the dynamic viewport/scissor.
`t0` is the trace accumulated by the preceding recreation, if any. -/
def begin_frame_acquire (env : Env) (d : Device) (t0 : List Ev)
    (r g b a : Nat) : Int × Device × List Ev :=
  let t1 := t0 ++ [Ev.waitFence, Ev.resetFence]
  match env.acquireRes with
  | .outOfDate => (FM_E_OUTOFDATE, { d with needs_recreate := true }, t1 ++ [Ev.acquire])
  | .suboptimal => (FM_E_OUTOFDATE, { d with needs_recreate := true }, t1 ++ [Ev.acquire])
  | .err => (FM_E_DEVICE, d, t1 ++ [Ev.acquire])
  | .success idx =>
      (FM_OK, { d with curImg := idx },
       t1 ++ [Ev.acquire, Ev.beginCmdBuf, Ev.beginRenderPass [r, g, b, a],
              Ev.setViewport, Ev.setScissor])

/-- begin_frame_impl: NOTREADY immediately on a zero client area; if the
recreate flag is set, run recreation and return NOTREADY on its failure;
then wait/acquire/record (the null-handle BADARGS guard of the C entry
point is outside the modelled state and omitted here, as for the other
per-frame calls). -/
def begin_frame_impl (env : Env) (d : Device) (r g b a : Nat) : Int × Device × List Ev :=
  if env.clientW = 0 ∨ env.clientH = 0 then (FM_E_NOTREADY, d, [])
  else if d.needs_recreate then
    match recreate_swapchain env d with
    | (false, d1, t1) => (FM_E_NOTREADY, d1, t1)
    | (true, d1, t1) => begin_frame_acquire env d1 t1 r g b a
  else begin_frame_acquire env d [] r g b a

/-- end_frame_impl: if the command-buffer vector is empty, return OK with
no effect; otherwise record the pending line draw (if any), end the render
pass and command buffer, submit, and reset the staging usage and the
pending-draw flag. -/
def end_frame_impl (d : Device) : Int × Device × List Ev :=
  if d.cbs = 0 then (FM_OK, d, [])
  else
    let drawCmds : List Ev :=
      if d.pending_draw ∧ 0 < d.verts_this_frame then
        [Ev.cmdBindPipeline, Ev.cmdBindVertexBuffers,
         Ev.cmdPushConstants d.color, Ev.cmdDraw d.verts_this_frame]
      else []
    (FM_OK,
     { d with pending_draw := false, vused := 0, verts_this_frame := 0 },
     drawCmds ++ [Ev.endRenderPass, Ev.endCmdBuf, Ev.queueSubmit])

/-- draw_lines_impl: a null vertex pointer or zero count is an OK no-op;
a payload of count * 12 bytes larger than the fixed capacity returns
NOMEM unchanged; otherwise the words are copied over the start of the
mapped staging buffer (wholesale overwrite) and count/color are stored
with the pending-draw flag.  `xyz` is the pointed-to word list (`none`
models a null pointer); `line_width_pixels` is accepted and ignored,
exactly as in the source. -/
def draw_lines_impl (d : Device) (xyz : Option (List Nat)) (count : Nat)
    (r g b a : Nat) (line_width_pixels : Nat) : Int × Device :=
  match xyz with
  | none => (FM_OK, d)
  | some v =>
    if count = 0 then (FM_OK, d)
    else
      let need := count * (4 * 3)
      if d.vcap < need then (FM_E_NOMEM, d)
      else
        (FM_OK,
         { d with mapped := v.take (3 * count) ++ d.mapped.drop (3 * count),
                  vused := need,
                  verts_this_frame := count,
                  pending_draw := true,
                  color := [r, g, b, a] })

/-- create_render_pass: a single creation call. -/
def create_render_pass (env : Env) (d : Device) : Bool × Device × List Ev :=
  if env.createRpOk then (true, { d with rp := true }, [Ev.create Res.renderPass])
  else (false, d, [])

/-- create_lines_pipeline: pipeline layout, two transient shader modules,
then the pipeline; the shader modules are destroyed after the pipeline
creation attempt whatever its outcome.  A failure after the layout was
created leaks the layout (the caller swallows the failure anyway). -/
def create_lines_pipeline (env : Env) (d : Device) : Bool × Device × List Ev :=
  if env.layoutOk = false then (false, d, [])
  else
    let d1 := { d with layout := true }
    let t1 : List Ev := [Ev.create Res.pipeLayout]
    if env.vsOk = false then (false, d1, t1)
    else
      let t2 := t1 ++ [Ev.create Res.shaderVS]
      if env.fsOk = false then (false, d1, t2 ++ [Ev.destroy Res.shaderVS])
      else
        let t3 := t2 ++ [Ev.create Res.shaderFS]
        if env.pipeOk then
          (true, { d1 with pipe := true },
           t3 ++ [Ev.create Res.pipe, Ev.destroy Res.shaderVS, Ev.destroy Res.shaderFS])
        else
          (false, d1, t3 ++ [Ev.destroy Res.shaderVS, Ev.destroy Res.shaderFS])

/-- create_vertex_buffer: round the requested size up to 64 KiB, create
the buffer, find a host-visible coherent memory type, allocate, bind and
persistently map.  The capacity recorded is the size reported by
vkGetBufferMemoryRequirements (`env.memSize`, which Vulkan guarantees to
be at least the buffer size); `used` starts at zero. -/
def create_vertex_buffer (env : Env) (d : Device) (min_bytes : Nat) : Bool × Device × List Ev :=
  let mb := if min_bytes < 2 ^ 16 then 2 ^ 16 else min_bytes
  if env.bufOk = false then (false, d, [])
  else
    let d1 := { d with vbuf := true }
    let t1 : List Ev := [Ev.create Res.vbuf]
    if env.memTypeFound = false then (false, d1, t1)
    else if env.allocOk = false then (false, d1, t1)
    else
      let d2 := { d1 with vmem := true }
      let t2 := t1 ++ [Ev.create Res.vmem]
      if env.bindOk = false then (false, d2, t2)
      else if env.mapOk = false then (false, d2, t2)
      else
        (true,
         { d2 with mappedH := true, vcap := env.memSize, vused := 0,
                   mapped := List.replicate (env.memSize / 4) 0 },
         t2)

/-- The destroy calls on the synchronization primitives and command pool
issued by the error paths of create_device_impl: vkDestroy on a null
handle is a no-op, so an event is emitted only for handles that exist. -/
def syncDestroyTrace (d : Device) : List Ev :=
  (if d.fence then [Ev.destroy Res.fence] else [])
    ++ (if d.semRender then [Ev.destroy Res.semRender] else [])
    ++ (if d.semAcquire then [Ev.destroy Res.semAcquire] else [])
    ++ (if d.cmdPool then [Ev.destroy Res.cmdPool] else [])

/-- Result of create_device_impl: the return code, the value written to
*out_dev (0 = no object, 1 stands for the nonzero address of the new
Device), the surviving Device state (none when it was deleted on an error
path), and the event trace. -/
structure CreateResult where
  ret : Int
  out_dev : Nat
  dev : Option Device
  trace : List Ev
deriving DecidableEq, Repr

/-- Tail of create_device_impl after the render pass and framebuffer
rebuild: pipeline and vertex buffer creation.  Their failures are logged
and swallowed (the source comments "continue; but drawing will fail"):
whatever happens, the function returns OK and hands out the handle. -/
def create_device_tail (env : Env) (d8 : Device) (t7 : List Ev) : CreateResult :=
  match create_lines_pipeline env d8 with
  | (false, d9, tp) => ⟨FM_OK, 1, some d9, t7 ++ tp⟩
  | (true, d9, tp) =>
      let r10 := create_vertex_buffer env d9 (2 ^ 20)
      ⟨FM_OK, 1, some r10.2.1, t7 ++ tp ++ r10.2.2⟩

/-- create_device_impl, following renderer_api.cpp line by line:
argument validation; instance; surface; adapter with a graphics+present
family; logical device; command pool and the three sync primitives (their
return values are ignored by the code); swapchain objects; render pass;
framebuffer rebuild against the render pass (failures logged and
swallowed, the loop continues); pipeline and vertex buffer (failures
logged and swallowed — the function still returns OK).  Each early error
path re-issues exactly the destroy calls of the source. -/
def create_device_impl (env : Env) (descNull hwndNull outNull : Bool) : CreateResult :=
  if outNull ∨ descNull ∨ hwndNull then ⟨FM_E_BADARGS, 0, none, []⟩
  else
  let d0 : Device := { vsync := env.vsync }
  if env.createInstanceOk = false then ⟨FM_E_DEVICE, 0, none, []⟩
  else
  let d1 := { d0 with instanceH := true }
  let t1 : List Ev := [Ev.create Res.inst]
  if env.createSurfaceOk = false then
    ⟨FM_E_DEVICE, 0, none, t1 ++ [Ev.destroy Res.inst]⟩
  else
  let d2 := { d1 with surfaceH := true }
  let t2 := t1 ++ [Ev.create Res.surf]
  if env.physFound = false then
    ⟨FM_E_DEVICE, 0, none, t2 ++ [Ev.destroy Res.surf, Ev.destroy Res.inst]⟩
  else
  let d3 := { d2 with physH := true }
  if env.createDeviceOk = false then
    ⟨FM_E_DEVICE, 0, none, t2 ++ [Ev.destroy Res.surf, Ev.destroy Res.inst]⟩
  else
  let d4 := { d3 with deviceH := true }
  let t3 := t2 ++ [Ev.create Res.dev]
  let d5 := { d4 with cmdPool := env.createPoolOk,
                      semAcquire := env.createSemAcquireOk,
                      semRender := env.createSemRenderOk,
                      fence := env.createFenceOk }
  let t4 := t3 ++ (if env.createPoolOk then [Ev.create Res.cmdPool] else [])
               ++ (if env.createSemAcquireOk then [Ev.create Res.semAcquire] else [])
               ++ (if env.createSemRenderOk then [Ev.create Res.semRender] else [])
               ++ (if env.createFenceOk then [Ev.create Res.fence] else [])
  match create_swapchain_objects env d5 with
  | (false, d6, tc) =>
      ⟨FM_E_DEVICE, 0, none,
       t4 ++ tc ++ syncDestroyTrace d6
          ++ [Ev.destroy Res.dev, Ev.destroy Res.surf, Ev.destroy Res.inst]⟩
  | (true, d6, tc) =>
    let t5 := t4 ++ tc
    match create_render_pass env d6 with
    | (false, _, _) =>
        let dp := destroy_swapchain_objects d6
        ⟨FM_E_DEVICE, 0, none,
         t5 ++ dp.2 ++ syncDestroyTrace dp.1
            ++ [Ev.destroy Res.dev, Ev.destroy Res.surf, Ev.destroy Res.inst]⟩
    | (true, d7, tr) =>
      let t6 := t5 ++ tr
      let tOldFbs := marksTrace (fun i => Ev.destroy (Res.framebuffer i)) 0 d7.fbs
      let ic := d7.views.length
      let rFail := clampFail env.fbRebuildFail ic
      let d8 := { d7 with fbs := (List.range ic).map (fun i => decide (rFail ≠ some i)),
                          fbsRp := true }
      let tNewFbs := (List.range ic).filterMap
        (fun i => if rFail = some i then none else some (Ev.create (Res.framebuffer i)))
      let t7 := t6 ++ tOldFbs ++ tNewFbs
      create_device_tail env d8 t7

/-- The result of create_device_impl on valid arguments (non-null desc,
hwnd and out pointer), which is what the spec's creation claims range
over. -/
def createRes (env : Env) : CreateResult :=
  create_device_impl env false false false

/-- The creation events of steps 2-3 of create_device_impl: instance,
surface, logical device, then command pool and the three synchronization
primitives (whose creation results the code ignores: a failed one simply
stays null). -/
def coreCreateTrace (env : Env) : List Ev :=
  [Ev.create Res.inst, Ev.create Res.surf, Ev.create Res.dev]
    ++ (if env.createPoolOk then [Ev.create Res.cmdPool] else [])
    ++ (if env.createSemAcquireOk then [Ev.create Res.semAcquire] else [])
    ++ (if env.createSemRenderOk then [Ev.create Res.semRender] else [])
    ++ (if env.createFenceOk then [Ev.create Res.fence] else [])

/-- The destroy events the create_device_impl error paths issue for the
sync primitives and command pool, in terms of the env bits that decided
which of them exist. -/
def syncDestroyTraceEnv (env : Env) : List Ev :=
  (if env.createFenceOk then [Ev.destroy Res.fence] else [])
    ++ (if env.createSemRenderOk then [Ev.destroy Res.semRender] else [])
    ++ (if env.createSemAcquireOk then [Ev.destroy Res.semAcquire] else [])
    ++ (if env.createPoolOk then [Ev.destroy Res.cmdPool] else [])

/-- The synchronization/pool resources that exist after step 3, decided
by the env bits (their creation results are ignored by the code). -/
def syncRes (env : Env) : List Res :=
  (if env.createPoolOk then [Res.cmdPool] else [])
    ++ (if env.createSemAcquireOk then [Res.semAcquire] else [])
    ++ (if env.createSemRenderOk then [Res.semRender] else [])
    ++ (if env.createFenceOk then [Res.fence] else [])

/-- The resources created in a trace, in order. -/
def createdSeq (t : List Ev) : List Res :=
  t.filterMap (fun e => match e with | .create r => some r | _ => none)

/-- The resources destroyed in a trace, in order. -/
def destroyedSeq (t : List Ev) : List Res :=
  t.filterMap (fun e => match e with | .destroy r => some r | _ => none)

/-- Collapses consecutive duplicates, starting after a first element. -/
def collapseAux : Comp → List Comp → List Comp
  | _, [] => []
  | prev, a :: rest =>
      if a = prev then collapseAux prev rest else a :: collapseAux a rest

/-- Collapses consecutive duplicate components: the component-granularity
view of a resource sequence. -/
def collapse : List Comp → List Comp
  | [] => []
  | a :: rest => a :: collapseAux a rest

/-- Envs in which swapchain-object creation cannot stop halfway through
the per-image loops: it either fails before creating anything (zero
client area or a failed vkCreateSwapchainKHR) or fully succeeds.  A
positive image count is part of the Vulkan contract
(minImageCount ≥ 1). -/
def chainCleanEnv (env : Env) : Bool :=
  decide (env.clientW = 0) || decide (env.clientH = 0) || !env.createSwapOk
    || (decide (clampFail env.viewFail env.imgCount = none)
        && decide (clampFail env.fbFail env.imgCount = none)
        && env.allocCbsOk && decide (0 < env.imgCount))

/-- Envs in which every creation step up to and including the render pass
succeeds: on these create_device_impl reaches the swallowed-failure zone
and returns OK regardless of the pipeline/vertex-buffer outcomes. -/
def coreThroughRpOk (env : Env) : Bool :=
  env.createInstanceOk && env.createSurfaceOk && env.physFound && env.createDeviceOk
    && decide (env.clientW ≠ 0) && decide (env.clientH ≠ 0) && env.createSwapOk
    && decide (clampFail env.viewFail env.imgCount = none)
    && decide (clampFail env.fbFail env.imgCount = none)
    && env.allocCbsOk && env.createRpOk

/-- Envs in which swapchain-object creation starts (a live client area
and a successful vkCreateSwapchainKHR, everything before it fine) but
stops partway through the per-image loops or the command-buffer
allocation.  On these create_device returns a device error whose cleanup
path (renderer_api.cpp lines 466-476) never calls
destroy_swapchain_objects, leaking the chain objects created so far. -/
def chainPartialEnv (env : Env) : Bool :=
  env.createInstanceOk && env.createSurfaceOk && env.physFound && env.createDeviceOk
    && decide (env.clientW ≠ 0) && decide (env.clientH ≠ 0) && env.createSwapOk
    && !(decide (clampFail env.viewFail env.imgCount = none)
         && decide (clampFail env.fbFail env.imgCount = none)
         && env.allocCbsOk)

/-- The amended creation contract (claim C1), over every environment:
the OK/handle equivalence and the zero-handle/no-context guarantee hold
on every non-OK return; on the chain-clean environments every error
return tears everything down (created and destroyed resources are a
permutation of each other, and at component granularity destruction is
the exact reverse of creation); whenever every step through the render
pass succeeds the return is OK (post-render-pass failures are
swallowed); and on the mid-loop-failure environments the error return
leaks: the created swapchain is never destroyed, so the resource
counter cannot balance. -/
def CreateContract (env : Env) : Prop :=
  ((createRes env).ret = FM_OK ↔ (createRes env).out_dev ≠ 0)
  ∧ ((createRes env).ret ≠ FM_OK →
      (createRes env).out_dev = 0 ∧ (createRes env).dev = none)
  ∧ (chainCleanEnv env = true → (createRes env).ret ≠ FM_OK →
      List.Perm (destroyedSeq (createRes env).trace) (createdSeq (createRes env).trace)
      ∧ collapse ((destroyedSeq (createRes env).trace).map compOf)
          = (collapse (((createdSeq (createRes env).trace)).map compOf)).reverse)
  ∧ (coreThroughRpOk env = true → (createRes env).ret = FM_OK)
  ∧ (chainPartialEnv env = true →
      (createRes env).ret ≠ FM_OK
      ∧ Res.swapchain ∈ createdSeq (createRes env).trace
      ∧ Res.swapchain ∉ destroyedSeq (createRes env).trace
      ∧ ¬ List.Perm (destroyedSeq (createRes env).trace)
            (createdSeq (createRes env).trace))

/-- One per-frame host call, for stating properties of call sequences. -/
inductive FrameCall where
  | draw (xyz : Option (List Nat)) (count : Nat) (r g b a line_width_pixels : Nat)
  | endf
deriving Repr

/-- Runs a sequence of draw_lines/end_frame calls against a device. -/
def runFrameCalls (d : Device) : List FrameCall → Device
  | [] => d
  | .draw xyz c r g b a lw :: rest =>
      runFrameCalls (draw_lines_impl d xyz c r g b a lw).2 rest
  | .endf :: rest => runFrameCalls (end_frame_impl d).2.1 rest

/-- A benign environment: live 800x600 client area, two swapchain images,
a 1 MiB staging allocation, successful acquire of image 0. -/
def envAllOk : Env :=
  { clientW := 800, clientH := 600, imgCount := 2, memSize := 2 ^ 20,
    acquireRes := .success 0 }

/-- envAllOk except that vkCreatePipelineLayout fails, so pipeline
creation fails while everything before it succeeded. -/
def envPipeFail : Env := { envAllOk with layoutOk := false }

/-- An environment in which the window is alive (800x600) but
vkCreateSwapchainKHR fails, so any recreation attempt fails after the old
chain objects were already destroyed. -/
def envSwapFail : Env := { clientW := 800, clientH := 600, createSwapOk := false }

/-- The device handed out by a fully successful create_device call. -/
def devCreated : Device := (createRes envAllOk).dev.getD {}

/-- devCreated after a successful begin_frame. -/
def devBegun : Device := (begin_frame_impl envAllOk devCreated 0 0 0 0).2.1

/-- devBegun after a successful draw_lines with two vertices. -/
def devDrawn : Device :=
  (draw_lines_impl devBegun (some [1, 2, 3, 4, 5, 6]) 2 10 20 30 40 7).2

/-- devDrawn after a resize notification whose recreation fails: the old
chain objects (command buffers included) are destroyed and nothing
replaces them, leaving an empty command-buffer vector while the draw is
still pending. -/
def devBroken : Device := (resize_swapchain_impl envSwapFail devDrawn 800 600).2.1

/-- A small concrete device in the shape of a freshly created one, used to
instantiate universally quantified theorems. -/
def devSmall : Device :=
  { swap := true, extentW := 4, extentH := 4, images := 1, views := [true],
    fbs := [true], fbsRp := true, rp := true, cmdPool := true, cbs := 1,
    cbsAlloc := true, semAcquire := true, semRender := true, fence := true,
    layout := true, pipe := true, vbuf := true, vmem := true, vcap := 48,
    vused := 0, mappedH := true, mapped := List.replicate 12 0 }

/-- Whether an event is a resource creation. -/
def isCreate : Ev → Bool
  | .create _ => true
  | _ => false

/-- Whether an event is a resource lifecycle event (creation, destruction
or a device-idle wait) — as opposed to an acquire or a recorded command. -/
def isLifecycle : Ev → Bool
  | .create _ => true
  | .destroy _ => true
  | .waitIdle => true
  | _ => false

/-! Theorems.  Claim C2: an overflowing draw_lines returns NOMEM and leaves
every field of the device untouched. -/

/-- Claim C2: for a non-null vertex pointer and positive count whose
payload of count * 12 bytes exceeds the fixed staging capacity,
draw_lines_impl returns NOMEM and the device is returned exactly as it
was: used bytes, staged vertex count, pending-draw flag, stored color and
buffer contents all keep their pre-call values. -/
theorem draw_lines_overflow_nomem_state_unchanged
    (d : Device) (v : List Nat) (count r g b a lw : Nat)
    (hc : 0 < count) (hover : d.vcap < count * 12) :
    draw_lines_impl d (some v) count r g b a lw = (FM_E_NOMEM, d) := by
  simp [draw_lines_impl, Nat.pos_iff_ne_zero.mp hc]
  omega

theorem draw_lines_overflow_witness :
    0 < 5 ∧ devSmall.vcap < 5 * 12 ∧
      draw_lines_impl devSmall (some [0, 0, 0]) 5 1 2 3 4 9 = (FM_E_NOMEM, devSmall) :=
  ⟨by decide, by decide,
   draw_lines_overflow_nomem_state_unchanged devSmall [0, 0, 0] 5 1 2 3 4 9
     (by decide) (by decide)⟩

/-- Claim C9: a draw_lines call with a null vertex pointer, or with a zero
count, returns OK and changes nothing at all. -/
theorem draw_lines_null_or_zero_noop
    (d : Device) (v : List Nat) (count r g b a lw : Nat) :
    draw_lines_impl d none count r g b a lw = (FM_OK, d)
    ∧ draw_lines_impl d (some v) 0 r g b a lw = (FM_OK, d) := by
  constructor
  · rfl
  · simp [draw_lines_impl]

/-- Claim C10: line_width_pixels is accepted and discarded: two calls that
differ only in it produce identical results, and the end_frame recording
that follows is identical as well. -/
theorem draw_lines_line_width_irrelevant
    (d : Device) (xyz : Option (List Nat)) (count r g b a lw lw' : Nat) :
    draw_lines_impl d xyz count r g b a lw = draw_lines_impl d xyz count r g b a lw'
    ∧ end_frame_impl (draw_lines_impl d xyz count r g b a lw).2
        = end_frame_impl (draw_lines_impl d xyz count r g b a lw').2 := by
  constructor <;> rfl

/-- Claim C4, counterexample: devBroken is reached from a successfully
created device by begin_frame (OK), draw_lines (OK, draw now pending),
then a resize whose recreation fails after destroying the old command
buffers.  On it, end_frame returns OK but leaves the pending-draw flag
set and the staged usage nonzero, contradicting the claim that after any
end_frame call they are reset. -/
theorem end_frame_empty_cbs_skips_reset_cex :
    (createRes envAllOk).ret = FM_OK
    ∧ devBroken.cbs = 0
    ∧ devBroken.pending_draw = true
    ∧ devBroken.vused = 24
    ∧ (end_frame_impl devBroken).1 = FM_OK
    ∧ (end_frame_impl devBroken).2.1.pending_draw = true
    ∧ (end_frame_impl devBroken).2.1.vused = 24
    ∧ (end_frame_impl devBroken).2.1.verts_this_frame = 2 := by
  decide

/-- Claim C4 as amended: on any device whose command-buffer vector is
nonempty (every successfully created device, until a failed recreation
empties it), end_frame returns OK and resets the pending-draw flag, the
used byte count and the staged vertex count to their empty state,
whether or not a draw was pending. -/
theorem end_frame_resets_pending_and_usage (d : Device) (h : 0 < d.cbs) :
    (end_frame_impl d).1 = FM_OK
    ∧ (end_frame_impl d).2.1
        = { d with pending_draw := false, vused := 0, verts_this_frame := 0 } := by
  have : ¬ d.cbs = 0 := Nat.pos_iff_ne_zero.mp h
  constructor <;> simp [end_frame_impl, this]

theorem end_frame_resets_witness :
    0 < devSmall.cbs
    ∧ ((end_frame_impl devSmall).1 = FM_OK
       ∧ (end_frame_impl devSmall).2.1
           = { devSmall with pending_draw := false, vused := 0, verts_this_frame := 0 }) :=
  ⟨by decide, end_frame_resets_pending_and_usage devSmall (by decide)⟩

/-! Helper lemmas about the traces of the chain destroy/create/recreate
procedures: they consist of lifecycle events only, so no image
acquisition and no command recording happens inside them. -/

theorem all_marksTrace {p : Ev → Bool} {f : Nat → Ev} (hp : ∀ j, p (f j) = true) :
    ∀ (i : Nat) (l : List Bool), (marksTrace f i l).all p = true := by
  intro i l
  induction l generalizing i with
  | nil => rfl
  | cons b rest ih =>
    cases b <;> simp [marksTrace, hp, ih]

theorem destroy_chain_all_lifecycle (d : Device) :
    ((destroy_swapchain_objects d).2).all isLifecycle = true := by
  have h1 := @all_marksTrace isLifecycle
    (fun i => Ev.destroy (Res.framebuffer i)) (fun j => rfl) 0 d.fbs
  have h2 := @all_marksTrace isLifecycle
    (fun i => Ev.destroy (Res.view i)) (fun j => rfl) 0 d.views
  simp only [destroy_swapchain_objects, List.all_append, h1, h2, Bool.true_and]
  split <;> split <;> rfl

theorem create_chain_all_isCreate (env : Env) (d : Device) :
    ((create_swapchain_objects env d).2.2).all isCreate = true := by
  simp only [create_swapchain_objects]
  split
  · rfl
  · split
    · rfl
    · split <;> [skip; split <;> [skip; split]] <;>
        simp [List.all_append, List.all_map, Function.comp, isCreate]

theorem isLifecycle_of_isCreate {e : Ev} (h : isCreate e = true) : isLifecycle e = true := by
  cases e <;> simp_all [isCreate, isLifecycle]

theorem recreate_chain_all_lifecycle (env : Env) (d : Device) :
    ((recreate_swapchain env d).2.2).all isLifecycle = true := by
  simp only [recreate_swapchain]
  split
  · rfl
  · rcases hR : create_swapchain_objects env (destroy_swapchain_objects d).1
      with ⟨ok, d2, t2⟩
    have h2 : t2.all isLifecycle = true := by
      have hc := create_chain_all_isCreate env (destroy_swapchain_objects d).1
      rw [hR] at hc
      exact List.all_eq_true.mpr fun x hx =>
        isLifecycle_of_isCreate (List.all_eq_true.mp hc x hx)
    cases ok <;>
      simp [List.all_append, List.all_cons, isLifecycle,
            destroy_chain_all_lifecycle, h2]

theorem recreate_trace_no_acquire (env : Env) (d : Device) :
    Ev.acquire ∉ (recreate_swapchain env d).2.2 := by
  intro hm
  exact absurd (List.all_eq_true.mp (recreate_chain_all_lifecycle env d) _ hm) (by decide)

theorem recreate_trace_no_beginCmdBuf (env : Env) (d : Device) :
    Ev.beginCmdBuf ∉ (recreate_swapchain env d).2.2 := by
  intro hm
  exact absurd (List.all_eq_true.mp (recreate_chain_all_lifecycle env d) _ hm) (by decide)

/-- Claim C6: begin_frame returns NOTREADY with no state change and no
events when the client area is zero; and when the recreate flag is set
and recreation fails, begin_frame returns NOTREADY without attempting an
acquire and without beginning command recording. -/
theorem begin_frame_notready_on_zero_area_or_failed_recreate
    (env : Env) (d : Device) (r g b a : Nat) :
    (env.clientW = 0 ∨ env.clientH = 0 →
      begin_frame_impl env d r g b a = (FM_E_NOTREADY, d, []))
    ∧ (env.clientW ≠ 0 → env.clientH ≠ 0 → d.needs_recreate = true →
        (recreate_swapchain env d).1 = false →
        (begin_frame_impl env d r g b a).1 = FM_E_NOTREADY
        ∧ Ev.acquire ∉ (begin_frame_impl env d r g b a).2.2
        ∧ Ev.beginCmdBuf ∉ (begin_frame_impl env d r g b a).2.2) := by
  constructor
  · intro h
    simp [begin_frame_impl, h]
  · intro hW hH hrec hfail
    rcases hR : recreate_swapchain env d with ⟨ok, d1, t1⟩
    rw [hR] at hfail
    subst hfail
    have hb : begin_frame_impl env d r g b a = (FM_E_NOTREADY, d1, t1) := by
      simp [begin_frame_impl, hW, hH, hrec, hR]
    rw [hb]
    refine ⟨rfl, ?_, ?_⟩
    · have := recreate_trace_no_acquire env d
      rw [hR] at this; exact this
    · have := recreate_trace_no_beginCmdBuf env d
      rw [hR] at this; exact this

theorem begin_frame_notready_witness :
    (begin_frame_impl envSwapFail { devSmall with needs_recreate := true } 0 0 0 0).1
        = FM_E_NOTREADY
    ∧ Ev.acquire ∉ (begin_frame_impl envSwapFail
        { devSmall with needs_recreate := true } 0 0 0 0).2.2
    ∧ Ev.beginCmdBuf ∉ (begin_frame_impl envSwapFail
        { devSmall with needs_recreate := true } 0 0 0 0).2.2 :=
  (begin_frame_notready_on_zero_area_or_failed_recreate envSwapFail
      { devSmall with needs_recreate := true } 0 0 0 0).2
    (by decide) (by decide) (by decide) (by decide)

/-- create_swapchain_objects never touches the recreate flag, the render
pass handle, or the staging-buffer fields. -/
theorem create_chain_preserves (env : Env) (d : Device) :
    (create_swapchain_objects env d).2.1.needs_recreate = d.needs_recreate
    ∧ (create_swapchain_objects env d).2.1.rp = d.rp
    ∧ (create_swapchain_objects env d).2.1.vcap = d.vcap
    ∧ (create_swapchain_objects env d).2.1.vused = d.vused := by
  unfold create_swapchain_objects
  dsimp only
  repeat first | exact ⟨rfl, rfl, rfl, rfl⟩ | split

/-- Success of create_swapchain_objects forces every step to have
succeeded: a live client area, the swapchain creation call, both
per-image loops and the command-buffer allocation. -/
theorem create_chain_success_conditions (env : Env) (d : Device)
    (h : (create_swapchain_objects env d).1 = true) :
    ¬ env.clientW = 0 ∧ ¬ env.clientH = 0 ∧ env.createSwapOk = true
    ∧ clampFail env.viewFail env.imgCount = none
    ∧ clampFail env.fbFail env.imgCount = none
    ∧ env.allocCbsOk = true := by
  unfold create_swapchain_objects at h
  dsimp only at h
  split at h
  · simp at h
  next h1 =>
    split at h
    · simp at h
    next h2 =>
      split at h
      next k hk => simp at h
      next hv =>
        split at h
        next k hk => simp at h
        next hf =>
          split at h
          next hcb =>
            push_neg at h1
            exact ⟨h1.1, h1.2, Bool.not_eq_false _ |>.mp h2, hv, hf, hcb⟩
          next hcb => simp at h

/-- On success, create_swapchain_objects yields the fully populated chain
state: swapchain present, a full vector of views and of framebuffers
(bound to the render pass the device had), and an allocated
command-buffer block of length imgCount. -/
theorem create_chain_success_state (env : Env) (d : Device)
    (h : (create_swapchain_objects env d).1 = true) :
    (create_swapchain_objects env d).2.1
      = { d with swap := true, extentW := env.clientW, extentH := env.clientH,
                 images := env.imgCount, views := List.replicate env.imgCount true,
                 fbs := List.replicate env.imgCount true, fbsRp := d.rp,
                 cbs := env.imgCount, cbsAlloc := true } := by
  obtain ⟨h1, h2, h3, h4, h5, h6⟩ := create_chain_success_conditions env d h
  simp [create_swapchain_objects, h1, h2, h3, h4, h5, h6]

/-- Claim C7: recreation aborts before destroying or creating anything
when the client area is zero (returning the device unchanged, recreate
flag included); it clears the recreate flag exactly on success, a failed
attempt leaving the flag as it was; and success means a fully rebuilt
chain: swapchain present, every view and framebuffer non-null, the
framebuffers bound to the (preserved) render pass, the command-buffer
block allocated with count equal to the image count. -/
theorem recreate_swapchain_clears_flag_exactly_on_success
    (env : Env) (d : Device) :
    (env.clientW = 0 ∨ env.clientH = 0 →
      recreate_swapchain env d = (false, d, []))
    ∧ ((recreate_swapchain env d).1 = false →
        (recreate_swapchain env d).2.1.needs_recreate = d.needs_recreate)
    ∧ ((recreate_swapchain env d).1 = true →
        (recreate_swapchain env d).2.1.needs_recreate = false
        ∧ (recreate_swapchain env d).2.1.swap = true
        ∧ (recreate_swapchain env d).2.1.images = env.imgCount
        ∧ (recreate_swapchain env d).2.1.views = List.replicate env.imgCount true
        ∧ (recreate_swapchain env d).2.1.fbs = List.replicate env.imgCount true
        ∧ (recreate_swapchain env d).2.1.cbsAlloc = true
        ∧ (recreate_swapchain env d).2.1.cbs = (recreate_swapchain env d).2.1.images
        ∧ (recreate_swapchain env d).2.1.rp = d.rp
        ∧ (recreate_swapchain env d).2.1.fbsRp = d.rp) := by
  by_cases hz : env.clientW = 0 ∨ env.clientH = 0
  · refine ⟨fun _ => by simp [recreate_swapchain, hz], ?_, ?_⟩
    · intro _; simp [recreate_swapchain, hz]
    · intro hok
      exact absurd hok (by simp [recreate_swapchain, hz])
  · push_neg at hz
    rcases hC : create_swapchain_objects env (destroy_swapchain_objects d).1
      with ⟨ok, d2, t2⟩
    refine ⟨fun h => absurd h (by simp [hz.1, hz.2]), ?_, ?_⟩
    · intro hfail
      cases ok
      · have hpres := create_chain_preserves env (destroy_swapchain_objects d).1
        rw [hC] at hpres
        simpa [recreate_swapchain, hz.1, hz.2, hC] using hpres.1
      · exact absurd hfail (by simp [recreate_swapchain, hz.1, hz.2, hC])
    · intro hok
      cases ok
      · exact absurd hok (by simp [recreate_swapchain, hz.1, hz.2, hC])
      · have hst := create_chain_success_state env (destroy_swapchain_objects d).1
          (by rw [hC])
        rw [hC] at hst
        have hre : (recreate_swapchain env d).2.1 = { d2 with needs_recreate := false } := by
          simp [recreate_swapchain, hz.1, hz.2, hC]
        dsimp only at hst
        subst hst
        rw [hre]
        simp [destroy_swapchain_objects]

theorem recreate_swapchain_witness :
    (recreate_swapchain envAllOk { devSmall with needs_recreate := true }).1 = true
    ∧ (recreate_swapchain envAllOk { devSmall with needs_recreate := true }).2.1.needs_recreate
        = false := by
  have h := (recreate_swapchain_clears_flag_exactly_on_success envAllOk
    { devSmall with needs_recreate := true }).2.2 (by decide)
  exact ⟨by decide, h.1⟩

/-- Claim C5: with a live client area, (i) if the recreate flag is clear
and acquisition reports staleness (out-of-date or suboptimal), begin_frame
returns OUTOFDATE with the recreate flag set and the frame's trace is
exactly fence-wait, fence-reset, acquire: no command recording and no
resource creation or destruction for that frame; (ii) if the recreate
flag is set, the frame's trace begins with the full recreation trace,
which contains no acquire, so the chain rebuild runs before any acquire
is attempted — and if the rebuild fails, the trace is the rebuild trace
alone, with no acquire at all. -/
theorem begin_frame_staleness_and_rebuild_before_acquire
    (env : Env) (d : Device) (r g b a : Nat)
    (hW : env.clientW ≠ 0) (hH : env.clientH ≠ 0) :
    (d.needs_recreate = false →
      (env.acquireRes = .outOfDate ∨ env.acquireRes = .suboptimal) →
      begin_frame_impl env d r g b a
        = (FM_E_OUTOFDATE, { d with needs_recreate := true },
           [Ev.waitFence, Ev.resetFence, Ev.acquire]))
    ∧ (d.needs_recreate = true →
        Ev.acquire ∉ (recreate_swapchain env d).2.2
        ∧ (∃ t2, (begin_frame_impl env d r g b a).2.2
              = (recreate_swapchain env d).2.2 ++ t2)
        ∧ ((recreate_swapchain env d).1 = false →
            (begin_frame_impl env d r g b a).2.2 = (recreate_swapchain env d).2.2)) := by
  constructor
  · intro hrec hstale
    rcases hstale with hs | hs <;>
      simp [begin_frame_impl, begin_frame_acquire, hW, hH, hrec, hs]
  · intro hrec
    refine ⟨recreate_trace_no_acquire env d, ?_, ?_⟩
    · rcases hR : recreate_swapchain env d with ⟨ok, d1, t1⟩
      cases ok
      · exact ⟨[], by simp [begin_frame_impl, hW, hH, hrec, hR]⟩
      · have hb : begin_frame_impl env d r g b a
            = begin_frame_acquire env d1 t1 r g b a := by
          simp [begin_frame_impl, hW, hH, hrec, hR]
        rw [hb]
        cases hA : env.acquireRes <;>
          simp [begin_frame_acquire, hA, List.append_assoc]
    · intro hfail
      rcases hR : recreate_swapchain env d with ⟨ok, d1, t1⟩
      rw [hR] at hfail
      subst hfail
      simp [begin_frame_impl, hW, hH, hrec, hR]

theorem begin_frame_staleness_witness :
    envAllOk.clientW ≠ 0 ∧ envAllOk.clientH ≠ 0 ∧
      (devSmall.needs_recreate = false →
        (({ envAllOk with acquireRes := .outOfDate } : Env).acquireRes = .outOfDate
          ∨ ({ envAllOk with acquireRes := .outOfDate } : Env).acquireRes = .suboptimal) →
        begin_frame_impl { envAllOk with acquireRes := .outOfDate } devSmall 0 0 0 0
          = (FM_E_OUTOFDATE, { devSmall with needs_recreate := true },
             [Ev.waitFence, Ev.resetFence, Ev.acquire])) :=
  ⟨by decide, by decide,
   (begin_frame_staleness_and_rebuild_before_acquire
      { envAllOk with acquireRes := .outOfDate } devSmall 0 0 0 0
      (by decide) (by decide)).1⟩

/-- Claim C8: a resize notification with a zero dimension only sets the
recreate flag — no waiting, destroying or rebuilding happens and the rest
of the state is untouched — and a later non-zero resize under a live
window with a successfully rebuilding chain returns OK with the flag
cleared, after which begin_frame succeeds (given a successful acquire):
no permanent stuck state. -/
theorem resize_zero_defers_then_succeeds
    (d : Device) (env0 env1 env2 : Env) (w hgt idx r g b a : Nat)
    (hw : w ≠ 0) (hh : hgt ≠ 0)
    (h1W : env1.clientW ≠ 0) (h1H : env1.clientH ≠ 0)
    (h1sw : env1.createSwapOk = true)
    (h1v : clampFail env1.viewFail env1.imgCount = none)
    (h1f : clampFail env1.fbFail env1.imgCount = none)
    (h1cb : env1.allocCbsOk = true)
    (h2W : env2.clientW ≠ 0) (h2H : env2.clientH ≠ 0)
    (h2a : env2.acquireRes = .success idx) :
    (∀ (env' : Env) (d' : Device) (w' h' : Nat), w' = 0 ∨ h' = 0 →
        resize_swapchain_impl env' d' w' h'
          = (FM_OK, { d' with needs_recreate := true }, []))
    ∧ (resize_swapchain_impl env1 (resize_swapchain_impl env0 d 0 0).2.1 w hgt).1 = FM_OK
    ∧ (resize_swapchain_impl env1
        (resize_swapchain_impl env0 d 0 0).2.1 w hgt).2.1.needs_recreate = false
    ∧ (begin_frame_impl env2
        (resize_swapchain_impl env1 (resize_swapchain_impl env0 d 0 0).2.1 w hgt).2.1
        r g b a).1 = FM_OK := by
  have hzero : ∀ (env' : Env) (d' : Device) (w' h' : Nat), w' = 0 ∨ h' = 0 →
      resize_swapchain_impl env' d' w' h'
        = (FM_OK, { d' with needs_recreate := true }, []) := by
    intro env' d' w' h' h
    simp [resize_swapchain_impl, h]
  have e0 : resize_swapchain_impl env0 d 0 0
      = (FM_OK, { d with needs_recreate := true }, []) := hzero env0 d 0 0 (Or.inl rfl)
  rw [e0]
  set d0 : Device := { d with needs_recreate := true } with hd0
  have hcreate : (create_swapchain_objects env1
      (destroy_swapchain_objects { d0 with needs_recreate := true }).1).1 = true := by
    simp [create_swapchain_objects, h1W, h1H, h1sw, h1v, h1f, h1cb]
  rcases hC : create_swapchain_objects env1
      (destroy_swapchain_objects { d0 with needs_recreate := true }).1
    with ⟨ok, d2, t2⟩
  rw [hC] at hcreate
  dsimp only at hcreate
  subst hcreate
  have hrec : recreate_swapchain env1 { d0 with needs_recreate := true }
      = (true, { d2 with needs_recreate := false },
         [Ev.waitIdle] ++ (destroy_swapchain_objects { d0 with needs_recreate := true }).2 ++ t2) := by
    simp [recreate_swapchain, h1W, h1H, hC]
  have e1 : resize_swapchain_impl env1 d0 w hgt
      = (FM_OK, { d2 with needs_recreate := false },
         [Ev.waitIdle] ++ (destroy_swapchain_objects { d0 with needs_recreate := true }).2 ++ t2) := by
    simp [resize_swapchain_impl, hw, hh, hrec]
  rw [e1]
  refine ⟨hzero, rfl, rfl, ?_⟩
  simp [begin_frame_impl, begin_frame_acquire, h2W, h2H, h2a]

theorem resize_zero_defers_witness :
    (resize_swapchain_impl envAllOk
        (resize_swapchain_impl envSwapFail devSmall 0 0).2.1 800 600).1 = FM_OK
    ∧ (resize_swapchain_impl envAllOk
        (resize_swapchain_impl envSwapFail devSmall 0 0).2.1 800 600).2.1.needs_recreate
        = false
    ∧ (begin_frame_impl envAllOk
        (resize_swapchain_impl envAllOk
          (resize_swapchain_impl envSwapFail devSmall 0 0).2.1 800 600).2.1
        0 0 0 0).1 = FM_OK := by
  have h := resize_zero_defers_then_succeeds devSmall envSwapFail envAllOk envAllOk
    800 600 0 0 0 0 0 (by decide) (by decide) (by decide) (by decide) (by decide)
    (by decide) (by decide) (by decide) (by decide) (by decide) (by decide)
  exact ⟨h.2.1, h.2.2.1, h.2.2.2⟩

/-- One draw_lines or end_frame call never changes the capacity and keeps
used ≤ capacity. -/
theorem frame_call_step_inv (d : Device) (c : FrameCall) :
    (runFrameCalls d [c]).vcap = d.vcap
    ∧ (d.vused ≤ d.vcap → (runFrameCalls d [c]).vused ≤ (runFrameCalls d [c]).vcap) := by
  cases c with
  | draw xyz cnt r g b a lw =>
    cases xyz with
    | none => exact ⟨rfl, fun h => h⟩
    | some v =>
      by_cases hc : cnt = 0
      · subst hc
        constructor <;> simp [runFrameCalls, draw_lines_impl]
      · by_cases hover : d.vcap < cnt * (4 * 3)
        · constructor <;> simp [runFrameCalls, draw_lines_impl, hc, hover]
        · constructor <;> simp [runFrameCalls, draw_lines_impl, hc, hover] <;> omega
  | endf =>
    by_cases hz : d.cbs = 0 <;>
      constructor <;> simp [runFrameCalls, end_frame_impl, hz]

/-- Over any sequence of draw_lines/end_frame calls the capacity is fixed
and used ≤ capacity is preserved. -/
theorem runFrameCalls_inv (calls : List FrameCall) :
    ∀ d : Device, (runFrameCalls d calls).vcap = d.vcap
      ∧ (d.vused ≤ d.vcap →
          (runFrameCalls d calls).vused ≤ (runFrameCalls d calls).vcap) := by
  induction calls with
  | nil => exact fun d => ⟨rfl, fun h => h⟩
  | cons c rest ih =>
    intro d
    have hstep := frame_call_step_inv d c
    have hone : ∀ d' : Device, runFrameCalls d' (c :: rest) = runFrameCalls (runFrameCalls d' [c]) rest := by
      intro d'
      cases c <;> simp [runFrameCalls]
    rw [hone]
    rcases ih (runFrameCalls d [c]) with ⟨hcap, hinv⟩
    exact ⟨hcap.trans hstep.1, fun h => hinv (by
      have := hstep.2 h
      omega)⟩

/-- Claim C3: the staging buffer's capacity is fixed at creation as the
reported allocation size — at least the 64 KiB floor (the requested size
rounded up) — with used starting at zero; across any sequence of
draw_lines/end_frame calls the capacity never changes and
used ≤ capacity holds after every call; and a successful draw_lines
overwrites the staged data wholesale, so after two consecutive draws the
staged count, color, pending flag, used bytes and the consumed buffer
prefix are exactly those of the second draw alone. -/
theorem staging_buffer_capacity_invariant
    (env : Env) (d : Device) (min_bytes : Nat)
    (hbuf : env.bufOk = true) (hmt : env.memTypeFound = true)
    (hal : env.allocOk = true) (hbd : env.bindOk = true) (hmp : env.mapOk = true)
    (hmem : (if min_bytes < 2 ^ 16 then 2 ^ 16 else min_bytes) ≤ env.memSize) :
    ((create_vertex_buffer env d min_bytes).1 = true
     ∧ (create_vertex_buffer env d min_bytes).2.1.vcap = env.memSize
     ∧ 2 ^ 16 ≤ (create_vertex_buffer env d min_bytes).2.1.vcap
     ∧ (create_vertex_buffer env d min_bytes).2.1.vused = 0)
    ∧ (∀ (d' : Device) (calls : List FrameCall),
        (runFrameCalls d' calls).vcap = d'.vcap
        ∧ (d'.vused ≤ d'.vcap →
            (runFrameCalls d' calls).vused ≤ (runFrameCalls d' calls).vcap))
    ∧ (∀ (dd : Device) (x1 : Option (List Nat)) (c1 r1 g1 b1 a1 w1 : Nat)
          (x2 : List Nat) (c2 r2 g2 b2 a2 w2 : Nat),
        0 < c2 → c2 * 12 ≤ dd.vcap → 3 * c2 ≤ x2.length →
        (draw_lines_impl (draw_lines_impl dd x1 c1 r1 g1 b1 a1 w1).2
            (some x2) c2 r2 g2 b2 a2 w2).1 = FM_OK
        ∧ (draw_lines_impl dd (some x2) c2 r2 g2 b2 a2 w2).1 = FM_OK
        ∧ ((draw_lines_impl (draw_lines_impl dd x1 c1 r1 g1 b1 a1 w1).2
              (some x2) c2 r2 g2 b2 a2 w2).2.verts_this_frame
            = (draw_lines_impl dd (some x2) c2 r2 g2 b2 a2 w2).2.verts_this_frame)
        ∧ ((draw_lines_impl (draw_lines_impl dd x1 c1 r1 g1 b1 a1 w1).2
              (some x2) c2 r2 g2 b2 a2 w2).2.color
            = (draw_lines_impl dd (some x2) c2 r2 g2 b2 a2 w2).2.color)
        ∧ ((draw_lines_impl (draw_lines_impl dd x1 c1 r1 g1 b1 a1 w1).2
              (some x2) c2 r2 g2 b2 a2 w2).2.pending_draw
            = (draw_lines_impl dd (some x2) c2 r2 g2 b2 a2 w2).2.pending_draw)
        ∧ ((draw_lines_impl (draw_lines_impl dd x1 c1 r1 g1 b1 a1 w1).2
              (some x2) c2 r2 g2 b2 a2 w2).2.vused
            = (draw_lines_impl dd (some x2) c2 r2 g2 b2 a2 w2).2.vused)
        ∧ ((draw_lines_impl (draw_lines_impl dd x1 c1 r1 g1 b1 a1 w1).2
              (some x2) c2 r2 g2 b2 a2 w2).2.mapped.take (3 * c2)
            = (draw_lines_impl dd (some x2) c2 r2 g2 b2 a2 w2).2.mapped.take (3 * c2))) := by
  refine ⟨?_, fun d' calls => runFrameCalls_inv calls d', ?_⟩
  · have hge : 2 ^ 16 ≤ env.memSize := by
      by_cases hlt : min_bytes < 2 ^ 16
      · rw [if_pos hlt] at hmem; exact hmem
      · rw [if_neg hlt] at hmem; omega
    have hcvb : create_vertex_buffer env d min_bytes
        = (true,
           { d with vbuf := true, vmem := true, mappedH := true,
                    vcap := env.memSize, vused := 0,
                    mapped := List.replicate (env.memSize / 4) 0 },
           [Ev.create Res.vbuf, Ev.create Res.vmem]) := by
      simp [create_vertex_buffer, hbuf, hmt, hal, hbd, hmp]
    rw [hcvb]
    exact ⟨rfl, rfl, hge, rfl⟩
  · intro dd x1 c1 r1 g1 b1 a1 w1 x2 c2 r2 g2 b2 a2 w2 hc2 hcap2 hlen2
    have hc2' : ¬ c2 = 0 := Nat.pos_iff_ne_zero.mp hc2
    have htake : ∀ L : List Nat,
        (x2.take (3 * c2) ++ L).take (3 * c2) = x2.take (3 * c2) := by
      intro L
      rw [List.take_append_of_le_length (by rw [List.length_take]; omega)]
      simp [List.take_take]
    set e1 := (draw_lines_impl dd x1 c1 r1 g1 b1 a1 w1).2 with he1
    have hcap1 : e1.vcap = dd.vcap := by
      rw [he1]
      have := frame_call_step_inv dd (.draw x1 c1 r1 g1 b1 a1 w1)
      simpa [runFrameCalls] using this.1
    have hover1 : ¬ e1.vcap < c2 * 12 := by omega
    have hover0 : ¬ dd.vcap < c2 * 12 := by omega
    refine ⟨?_, ?_, ?_, ?_, ?_, ?_, ?_⟩ <;>
      simp [draw_lines_impl, hc2', hover1, hover0, htake]

theorem staging_buffer_capacity_witness :
    envAllOk.bufOk = true
    ∧ (if (2 ^ 20 : Nat) < 2 ^ 16 then 2 ^ 16 else 2 ^ 20) ≤ envAllOk.memSize
    ∧ (create_vertex_buffer envAllOk {} (2 ^ 20)).1 = true
    ∧ (create_vertex_buffer envAllOk {} (2 ^ 20)).2.1.vcap = envAllOk.memSize
    ∧ 2 ^ 16 ≤ (create_vertex_buffer envAllOk {} (2 ^ 20)).2.1.vcap
    ∧ (create_vertex_buffer envAllOk {} (2 ^ 20)).2.1.vused = 0 := by
  have h := staging_buffer_capacity_invariant envAllOk {} (2 ^ 20)
    rfl rfl rfl rfl rfl (by decide)
  exact ⟨rfl, by decide, h.1.1, h.1.2.1, h.1.2.2.1, h.1.2.2.2⟩

/-- Claim C1, counterexample: in envPipeFail everything up to and
including the render pass succeeds but pipeline creation fails.  The
claim requires a failure at the pipeline-creation step to produce a
non-OK return with a zero out-handle after full teardown; instead
create_device returns OK with a nonzero handle and hands the caller a
context whose pipeline (and vertex buffer) do not exist. -/
theorem create_device_swallows_pipeline_failure_cex :
    envPipeFail.layoutOk = false
    ∧ (createRes envPipeFail).ret = FM_OK
    ∧ (createRes envPipeFail).out_dev ≠ 0
    ∧ ((createRes envPipeFail).dev.getD {}).pipe = false
    ∧ ((createRes envPipeFail).dev.getD {}).layout = false
    ∧ ((createRes envPipeFail).dev.getD {}).vbuf = false := by
  decide

/-- Both swallowed-failure branches of the creation tail return OK with
the nonzero handle. -/
theorem create_device_tail_ret (env : Env) (d8 : Device) (t7 : List Ev) :
    (create_device_tail env d8 t7).ret = FM_OK
    ∧ (create_device_tail env d8 t7).out_dev = 1 := by
  unfold create_device_tail
  rcases create_lines_pipeline env d8 with ⟨ok, d9, tp⟩
  cases ok <;> simp

/-- create_device equation: instance creation fails. -/
theorem createRes_instanceFail (env : Env) (h : env.createInstanceOk = false) :
    createRes env = ⟨FM_E_DEVICE, 0, none, []⟩ := by
  simp [createRes, create_device_impl, h]

/-- create_device equation: surface creation fails. -/
theorem createRes_surfaceFail (env : Env)
    (h1 : env.createInstanceOk = true) (h : env.createSurfaceOk = false) :
    createRes env = ⟨FM_E_DEVICE, 0, none,
      [Ev.create Res.inst, Ev.destroy Res.inst]⟩ := by
  simp [createRes, create_device_impl, h1, h]

/-- create_device equation: no adapter with a graphics+present family. -/
theorem createRes_physFail (env : Env)
    (h1 : env.createInstanceOk = true) (h2 : env.createSurfaceOk = true)
    (h : env.physFound = false) :
    createRes env = ⟨FM_E_DEVICE, 0, none,
      [Ev.create Res.inst, Ev.create Res.surf,
       Ev.destroy Res.surf, Ev.destroy Res.inst]⟩ := by
  simp [createRes, create_device_impl, h1, h2, h]

/-- create_device equation: logical-device creation fails. -/
theorem createRes_deviceFail (env : Env)
    (h1 : env.createInstanceOk = true) (h2 : env.createSurfaceOk = true)
    (h3 : env.physFound = true) (h : env.createDeviceOk = false) :
    createRes env = ⟨FM_E_DEVICE, 0, none,
      [Ev.create Res.inst, Ev.create Res.surf,
       Ev.destroy Res.surf, Ev.destroy Res.inst]⟩ := by
  simp [createRes, create_device_impl, h1, h2, h3, h]

/-- create_device equation: swapchain-object creation fails before
creating anything (zero client area or failed vkCreateSwapchainKHR). -/
theorem createRes_chainFail (env : Env)
    (h1 : env.createInstanceOk = true) (h2 : env.createSurfaceOk = true)
    (h3 : env.physFound = true) (h4 : env.createDeviceOk = true)
    (h : env.clientW = 0 ∨ env.clientH = 0 ∨ env.createSwapOk = false) :
    createRes env = ⟨FM_E_DEVICE, 0, none,
      coreCreateTrace env ++ syncDestroyTraceEnv env
        ++ [Ev.destroy Res.dev, Ev.destroy Res.surf, Ev.destroy Res.inst]⟩ := by
  rcases h with h | h | h <;>
    simp [createRes, create_device_impl, create_swapchain_objects,
          syncDestroyTrace, coreCreateTrace, syncDestroyTraceEnv,
          h1, h2, h3, h4, h]

theorem marksTrace_replicate_true (f : Nat → Ev) :
    ∀ (n i : Nat), marksTrace f i (List.replicate n true) = (List.range' i n).map f := by
  intro n
  induction n with
  | zero => intro i; rfl
  | succ n ih => intro i; simp [List.replicate_succ, marksTrace, List.range'_succ, ih]

/-- create_device equation: the chain is fully created, then render-pass
creation fails; everything is destroyed (chain objects forward per loop,
then sync primitives, pool, device, surface, instance). -/
theorem createRes_rpFail (env : Env)
    (h1 : env.createInstanceOk = true) (h2 : env.createSurfaceOk = true)
    (h3 : env.physFound = true) (h4 : env.createDeviceOk = true)
    (hW : ¬ env.clientW = 0) (hH : ¬ env.clientH = 0)
    (hsw : env.createSwapOk = true)
    (hv : clampFail env.viewFail env.imgCount = none)
    (hf : clampFail env.fbFail env.imgCount = none)
    (hcb : env.allocCbsOk = true)
    (hic : ¬ env.imgCount = 0)
    (hrp : env.createRpOk = false) :
    createRes env = ⟨FM_E_DEVICE, 0, none,
      coreCreateTrace env
      ++ ([Ev.create Res.swapchain]
          ++ (List.range env.imgCount).map (fun i => Ev.create (Res.view i))
          ++ (List.range env.imgCount).map (fun i => Ev.create (Res.framebuffer i))
          ++ [Ev.create Res.cmdBufs])
      ++ ((List.range' 0 env.imgCount).map (fun i => Ev.destroy (Res.framebuffer i))
          ++ (List.range' 0 env.imgCount).map (fun i => Ev.destroy (Res.view i))
          ++ [Ev.destroy Res.cmdBufs] ++ [Ev.destroy Res.swapchain])
      ++ syncDestroyTraceEnv env
      ++ [Ev.destroy Res.dev, Ev.destroy Res.surf, Ev.destroy Res.inst]⟩ := by
  simp [createRes, create_device_impl, create_swapchain_objects, create_render_pass,
        destroy_swapchain_objects, marksTrace_replicate_true, syncDestroyTrace,
        coreCreateTrace, syncDestroyTraceEnv,
        h1, h2, h3, h4, hW, hH, hsw, hv, hf, hcb, hic, hrp]

/-- create_device equation: every step through the render pass succeeds,
so the result is OK with the nonzero handle, whatever happens to the
framebuffer rebuild, the pipeline or the vertex buffer. -/
theorem createRes_okBranch (env : Env)
    (h1 : env.createInstanceOk = true) (h2 : env.createSurfaceOk = true)
    (h3 : env.physFound = true) (h4 : env.createDeviceOk = true)
    (hW : ¬ env.clientW = 0) (hH : ¬ env.clientH = 0)
    (hsw : env.createSwapOk = true)
    (hv : clampFail env.viewFail env.imgCount = none)
    (hf : clampFail env.fbFail env.imgCount = none)
    (hcb : env.allocCbsOk = true)
    (hrp : env.createRpOk = true) :
    (createRes env).ret = FM_OK ∧ (createRes env).out_dev = 1 := by
  simp [createRes, create_device_impl, create_swapchain_objects, create_render_pass,
        h1, h2, h3, h4, hW, hH, hsw, hv, hf, hcb, hrp]
  exact create_device_tail_ret _ _ _

theorem createdSeq_cons_create (r : Res) (t : List Ev) :
    createdSeq (Ev.create r :: t) = r :: createdSeq t := by
  simp [createdSeq, List.filterMap_cons]

theorem createdSeq_cons_destroy (r : Res) (t : List Ev) :
    createdSeq (Ev.destroy r :: t) = createdSeq t := by
  simp [createdSeq, List.filterMap_cons]

theorem destroyedSeq_cons_create (r : Res) (t : List Ev) :
    destroyedSeq (Ev.create r :: t) = destroyedSeq t := by
  simp [destroyedSeq, List.filterMap_cons]

theorem destroyedSeq_cons_destroy (r : Res) (t : List Ev) :
    destroyedSeq (Ev.destroy r :: t) = r :: destroyedSeq t := by
  simp [destroyedSeq, List.filterMap_cons]

theorem createdSeq_append (s t : List Ev) :
    createdSeq (s ++ t) = createdSeq s ++ createdSeq t := by
  simp [createdSeq]

theorem destroyedSeq_append (s t : List Ev) :
    destroyedSeq (s ++ t) = destroyedSeq s ++ destroyedSeq t := by
  simp [destroyedSeq]

theorem createdSeq_nil : createdSeq [] = [] := rfl

theorem destroyedSeq_nil : destroyedSeq [] = [] := rfl

theorem createdSeq_map_create (f : Nat → Res) (l : List Nat) :
    createdSeq (l.map (fun i => Ev.create (f i))) = l.map f := by
  induction l with
  | nil => rfl
  | cons a t ih => simp only [List.map_cons, createdSeq_cons_create, ih]

theorem destroyedSeq_map_create (f : Nat → Res) (l : List Nat) :
    destroyedSeq (l.map (fun i => Ev.create (f i))) = [] := by
  induction l with
  | nil => rfl
  | cons a t ih => simp only [List.map_cons, destroyedSeq_cons_create, ih]

theorem createdSeq_map_destroy (f : Nat → Res) (l : List Nat) :
    createdSeq (l.map (fun i => Ev.destroy (f i))) = [] := by
  induction l with
  | nil => rfl
  | cons a t ih => simp only [List.map_cons, createdSeq_cons_destroy, ih]

theorem destroyedSeq_map_destroy (f : Nat → Res) (l : List Nat) :
    destroyedSeq (l.map (fun i => Ev.destroy (f i))) = l.map f := by
  induction l with
  | nil => rfl
  | cons a t ih => simp only [List.map_cons, destroyedSeq_cons_destroy, ih]

theorem collapseAux_replicate_append (c : Comp) :
    ∀ (n : Nat) (l : List Comp),
      collapseAux c (List.replicate n c ++ l) = collapseAux c l := by
  intro n
  induction n with
  | zero => intro l; rfl
  | succ n ih => intro l; simp [List.replicate_succ, collapseAux, ih]

theorem core_destroy_is_reverse (env : Env) :
    destroyedSeq (syncDestroyTraceEnv env) ++ [Res.dev, Res.surf, Res.inst]
      = (createdSeq (coreCreateTrace env)).reverse := by
  cases hp : env.createPoolOk <;> cases ha : env.createSemAcquireOk <;>
    cases hr : env.createSemRenderOk <;> cases hf : env.createFenceOk <;>
      simp [coreCreateTrace, syncDestroyTraceEnv, createdSeq, destroyedSeq,
            List.filterMap_cons, hp, ha, hr, hf]

theorem coreCreate_seq (env : Env) :
    createdSeq (coreCreateTrace env) = [Res.inst, Res.surf, Res.dev] ++ syncRes env := by
  cases hp : env.createPoolOk <;> cases ha : env.createSemAcquireOk <;>
    cases hr : env.createSemRenderOk <;> cases hf : env.createFenceOk <;>
      simp [coreCreateTrace, syncRes, createdSeq, List.filterMap_cons, hp, ha, hr, hf]

theorem syncDestroy_seq (env : Env) :
    destroyedSeq (syncDestroyTraceEnv env) = (syncRes env).reverse := by
  cases hp : env.createPoolOk <;> cases ha : env.createSemAcquireOk <;>
    cases hr : env.createSemRenderOk <;> cases hf : env.createFenceOk <;>
      simp [syncDestroyTraceEnv, syncRes, destroyedSeq, List.filterMap_cons, hp, ha, hr, hf]

theorem createdSeq_coreCreate_nodestroy (env : Env) :
    destroyedSeq (coreCreateTrace env) = [] := by
  cases hp : env.createPoolOk <;> cases ha : env.createSemAcquireOk <;>
    cases hr : env.createSemRenderOk <;> cases hf : env.createFenceOk <;>
      simp [coreCreateTrace, destroyedSeq, List.filterMap_cons, hp, ha, hr, hf]

theorem syncDestroy_nocreate (env : Env) :
    createdSeq (syncDestroyTraceEnv env) = [] := by
  cases hp : env.createPoolOk <;> cases ha : env.createSemAcquireOk <;>
    cases hr : env.createSemRenderOk <;> cases hf : env.createFenceOk <;>
      simp [syncDestroyTraceEnv, createdSeq, List.filterMap_cons, hp, ha, hr, hf]

theorem map_compOf_range_chain (f : Nat → Res) (hf : ∀ i, compOf (f i) = Comp.chain)
    (n : Nat) : ((List.range n).map f).map compOf = List.replicate n Comp.chain := by
  rw [List.map_map]
  have hc : compOf ∘ f = fun _ => Comp.chain := funext fun i => hf i
  rw [hc]
  simp [List.map_const', List.length_range]

/-- The component-collapse computation for the render-pass-failure path:
the chain block collapses to a single chain component on both sides, and
the destruction order is the exact reverse of the creation order. -/
theorem collapse_rpfail_block (b1 b2 b3 b4 : Bool) (m : Nat) :
    collapse
      (List.replicate (m + 1) Comp.chain ++ List.replicate (m + 1) Comp.chain
        ++ [Comp.chain] ++ [Comp.chain]
        ++ (((if b1 then [Comp.cmdPool] else []) ++ (if b2 then [Comp.semAcquire] else [])
            ++ (if b3 then [Comp.semRender] else [])
            ++ (if b4 then [Comp.fence] else [])).reverse)
        ++ [Comp.dev, Comp.surf, Comp.inst])
    = (collapse
        ([Comp.inst, Comp.surf, Comp.dev]
          ++ ((if b1 then [Comp.cmdPool] else []) ++ (if b2 then [Comp.semAcquire] else [])
              ++ (if b3 then [Comp.semRender] else []) ++ (if b4 then [Comp.fence] else []))
          ++ ([Comp.chain] ++ List.replicate (m + 1) Comp.chain
              ++ List.replicate (m + 1) Comp.chain ++ [Comp.chain]))).reverse := by
  cases b1 <;> cases b2 <;> cases b3 <;> cases b4 <;>
    simp [collapse, collapseAux, collapseAux_replicate_append, List.replicate_succ]

/-- Whatever the environment, create_device on valid arguments returns
OK exactly when the written out-handle is nonzero, and on every non-OK
return the handle is zero and no Device object is handed out. -/
theorem createRes_ret_handle (env : Env) :
    ((createRes env).ret = FM_OK ↔ (createRes env).out_dev ≠ 0)
    ∧ ((createRes env).ret ≠ FM_OK →
        (createRes env).out_dev = 0 ∧ (createRes env).dev = none) := by
  unfold createRes create_device_impl
  rw [if_neg (by simp)]
  dsimp only
  repeat' split
  all_goals
    first
      | exact ⟨by norm_num [FM_E_DEVICE, FM_OK], fun _ => ⟨rfl, rfl⟩⟩
      | exact ⟨by rw [(create_device_tail_ret _ _ _).1, (create_device_tail_ret _ _ _).2]
                  norm_num [FM_OK],
               fun h => absurd (create_device_tail_ret _ _ _).1 h⟩

/-- create_device behaviour when swapchain-object creation stops partway
through (a per-image view or framebuffer loop fails, or the
command-buffer allocation fails): the return is a device error with a
zero handle and no context, but the cleanup path never destroys the
already-created chain objects — in particular the swapchain itself is
created and never destroyed, so the resource-creation counter does not
balance. -/
theorem createRes_chainPartial (env : Env)
    (hI : env.createInstanceOk = true) (hS : env.createSurfaceOk = true)
    (hP : env.physFound = true) (hD : env.createDeviceOk = true)
    (hW : ¬ env.clientW = 0) (hH : ¬ env.clientH = 0)
    (hsw : env.createSwapOk = true)
    (hmid : ¬ (clampFail env.viewFail env.imgCount = none
               ∧ clampFail env.fbFail env.imgCount = none
               ∧ env.allocCbsOk = true)) :
    (createRes env).ret = FM_E_DEVICE
    ∧ (createRes env).out_dev = 0
    ∧ (createRes env).dev = none
    ∧ Res.swapchain ∈ createdSeq (createRes env).trace
    ∧ Res.swapchain ∉ destroyedSeq (createRes env).trace := by
  have hsync : Res.swapchain ∉ syncRes env := by
    cases hp : env.createPoolOk <;> cases ha : env.createSemAcquireOk <;>
      cases hr : env.createSemRenderOk <;> cases hfe : env.createFenceOk <;>
        simp [syncRes, hp, ha, hr, hfe]
  cases hv : clampFail env.viewFail env.imgCount with
  | some k =>
    have heq : createRes env = ⟨FM_E_DEVICE, 0, none,
        coreCreateTrace env
        ++ ([Ev.create Res.swapchain]
            ++ (List.range k).map (fun i => Ev.create (Res.view i)))
        ++ syncDestroyTraceEnv env
        ++ [Ev.destroy Res.dev, Ev.destroy Res.surf, Ev.destroy Res.inst]⟩ := by
      simp [createRes, create_device_impl, create_swapchain_objects,
            syncDestroyTrace, coreCreateTrace, syncDestroyTraceEnv,
            hI, hS, hP, hD, hW, hH, hsw, hv]
    rw [heq]
    refine ⟨rfl, rfl, rfl, ?_, ?_⟩
    · simp [createdSeq_append, createdSeq_cons_create, createdSeq_cons_destroy,
            createdSeq_nil, createdSeq_map_create, syncDestroy_nocreate, coreCreate_seq]
    · simp [destroyedSeq_append, destroyedSeq_cons_create, destroyedSeq_cons_destroy,
            destroyedSeq_nil, destroyedSeq_map_create, syncDestroy_seq,
            createdSeq_coreCreate_nodestroy, List.mem_reverse, hsync]
  | none =>
    cases hfb : clampFail env.fbFail env.imgCount with
    | some k =>
      have heq : createRes env = ⟨FM_E_DEVICE, 0, none,
          coreCreateTrace env
          ++ ([Ev.create Res.swapchain]
              ++ (List.range env.imgCount).map (fun i => Ev.create (Res.view i))
              ++ (List.range k).map (fun i => Ev.create (Res.framebuffer i)))
          ++ syncDestroyTraceEnv env
          ++ [Ev.destroy Res.dev, Ev.destroy Res.surf, Ev.destroy Res.inst]⟩ := by
        simp [createRes, create_device_impl, create_swapchain_objects,
              syncDestroyTrace, coreCreateTrace, syncDestroyTraceEnv,
              hI, hS, hP, hD, hW, hH, hsw, hv, hfb]
      rw [heq]
      refine ⟨rfl, rfl, rfl, ?_, ?_⟩
      · simp [createdSeq_append, createdSeq_cons_create, createdSeq_cons_destroy,
              createdSeq_nil, createdSeq_map_create, syncDestroy_nocreate, coreCreate_seq]
      · simp [destroyedSeq_append, destroyedSeq_cons_create, destroyedSeq_cons_destroy,
              destroyedSeq_nil, destroyedSeq_map_create, syncDestroy_seq,
              createdSeq_coreCreate_nodestroy, List.mem_reverse, hsync]
    | none =>
      have hcb : env.allocCbsOk = false := by
        cases hcb2 : env.allocCbsOk
        · rfl
        · exact absurd ⟨hv, hfb, hcb2⟩ hmid
      have heq : createRes env = ⟨FM_E_DEVICE, 0, none,
          coreCreateTrace env
          ++ ([Ev.create Res.swapchain]
              ++ (List.range env.imgCount).map (fun i => Ev.create (Res.view i))
              ++ (List.range env.imgCount).map (fun i => Ev.create (Res.framebuffer i)))
          ++ syncDestroyTraceEnv env
          ++ [Ev.destroy Res.dev, Ev.destroy Res.surf, Ev.destroy Res.inst]⟩ := by
        simp [createRes, create_device_impl, create_swapchain_objects,
              syncDestroyTrace, coreCreateTrace, syncDestroyTraceEnv,
              hI, hS, hP, hD, hW, hH, hsw, hv, hfb, hcb]
      rw [heq]
      refine ⟨rfl, rfl, rfl, ?_, ?_⟩
      · simp [createdSeq_append, createdSeq_cons_create, createdSeq_cons_destroy,
              createdSeq_nil, createdSeq_map_create, syncDestroy_nocreate, coreCreate_seq]
      · simp [destroyedSeq_append, destroyedSeq_cons_create, destroyedSeq_cons_destroy,
              destroyedSeq_nil, destroyedSeq_map_create, syncDestroy_seq,
              createdSeq_coreCreate_nodestroy, List.mem_reverse, hsync]

/-- Claim C1 as amended: for every valid creation input, whatever the
platform outcomes, create_device returns OK exactly when the written
out-handle is nonzero, and on any non-OK return the handle is zero and
no Device object is handed out.  When swapchain-object creation cannot
stop halfway (it fails outright or fully succeeds), every error return
destroys exactly what was created — the resource-creation counter
balances — and at the spec's component granularity the destruction
order is the exact reverse of the creation order.  When the per-image
loops or the command-buffer allocation fail midway, the error return
leaks the chain objects created so far: the swapchain is created and
never destroyed, so the counter cannot balance.  And whenever every
step through the render pass succeeds, create_device returns OK even
when the framebuffer rebuild, the pipeline or the vertex buffer fails —
those failures are swallowed, which is what refutes the original claim
(see the counterexample). -/
theorem create_device_contract (env : Env) : CreateContract env := by
  obtain ⟨hiff, hzero⟩ := createRes_ret_handle env
  refine ⟨hiff, hzero, ?_⟩
  by_cases hI : env.createInstanceOk = true
  case neg =>
    have hI' : env.createInstanceOk = false := Bool.eq_false_iff.mpr hI
    rw [createRes_instanceFail env hI']
    exact ⟨fun _ _ => by decide, fun hcore => by simp [coreThroughRpOk, hI'] at hcore,
           fun hpart => by simp [chainPartialEnv, hI'] at hpart⟩
  by_cases hS : env.createSurfaceOk = true
  case neg =>
    have hS' : env.createSurfaceOk = false := Bool.eq_false_iff.mpr hS
    rw [createRes_surfaceFail env hI hS']
    exact ⟨fun _ _ => by decide, fun hcore => by simp [coreThroughRpOk, hS'] at hcore,
           fun hpart => by simp [chainPartialEnv, hS'] at hpart⟩
  by_cases hP : env.physFound = true
  case neg =>
    have hP' : env.physFound = false := Bool.eq_false_iff.mpr hP
    rw [createRes_physFail env hI hS hP']
    exact ⟨fun _ _ => by decide, fun hcore => by simp [coreThroughRpOk, hP'] at hcore,
           fun hpart => by simp [chainPartialEnv, hP'] at hpart⟩
  by_cases hD : env.createDeviceOk = true
  case neg =>
    have hD' : env.createDeviceOk = false := Bool.eq_false_iff.mpr hD
    rw [createRes_deviceFail env hI hS hP hD']
    exact ⟨fun _ _ => by decide, fun hcore => by simp [coreThroughRpOk, hD'] at hcore,
           fun hpart => by simp [chainPartialEnv, hD'] at hpart⟩
  by_cases hchain : env.clientW = 0 ∨ env.clientH = 0 ∨ env.createSwapOk = false
  · rw [createRes_chainFail env hI hS hP hD hchain]
    refine ⟨?_, ?_, ?_⟩
    · intro _ _
      constructor
      · rw [createdSeq_append, destroyedSeq_append, createdSeq_append, destroyedSeq_append,
            coreCreate_seq, syncDestroy_seq, createdSeq_coreCreate_nodestroy,
            syncDestroy_nocreate]
        simp only [destroyedSeq_cons_destroy, destroyedSeq_nil, createdSeq_cons_destroy,
                   createdSeq_nil, List.append_nil, List.nil_append]
        rw [← Multiset.coe_eq_coe]
        simp only [← Multiset.cons_coe, ← Multiset.coe_add, Multiset.coe_reverse,
                   ← Multiset.singleton_add]
        abel
      · cases hp : env.createPoolOk <;> cases ha : env.createSemAcquireOk <;>
          cases hr : env.createSemRenderOk <;> cases hf : env.createFenceOk <;>
            simp [coreCreateTrace, syncDestroyTraceEnv, createdSeq, destroyedSeq,
                  List.filterMap_cons, hp, ha, hr, hf, compOf, collapse, collapseAux]
    · intro hcore
      rcases hchain with h | h | h <;>
        simp [coreThroughRpOk, h] at hcore
    · intro hpart
      rcases hchain with h | h | h <;>
        simp [chainPartialEnv, h] at hpart
  · push_neg at hchain
    obtain ⟨hW, hH, hSW'⟩ := hchain
    have hSW : env.createSwapOk = true := by
      cases hsw : env.createSwapOk
      · exact absurd hsw hSW'
      · rfl
    by_cases hfull : clampFail env.viewFail env.imgCount = none
        ∧ clampFail env.fbFail env.imgCount = none ∧ env.allocCbsOk = true
    · obtain ⟨hv, hf, hcb⟩ := hfull
      by_cases hRP : env.createRpOk = true
      · have hok := createRes_okBranch env hI hS hP hD hW hH hSW hv hf hcb hRP
        refine ⟨fun _ hne => absurd hok.1 hne, fun _ => hok.1, ?_⟩
        intro hpart
        simp [chainPartialEnv, hI, hS, hP, hD, hW, hH, hSW, hv, hf, hcb] at hpart
      · have hRP' : env.createRpOk = false := Bool.eq_false_iff.mpr hRP
        refine ⟨?_, ?_, ?_⟩
        · intro hclean _
          have hicpos : 0 < env.imgCount := by
            simp [chainCleanEnv, hW, hH, hSW] at hclean
            tauto
          have hic : ¬ env.imgCount = 0 := Nat.pos_iff_ne_zero.mp hicpos
          rw [createRes_rpFail env hI hS hP hD hW hH hSW hv hf hcb hic hRP']
          constructor
          · simp only [createdSeq_append, destroyedSeq_append, coreCreate_seq,
                       syncDestroy_seq, createdSeq_coreCreate_nodestroy, syncDestroy_nocreate,
                       createdSeq_cons_create, createdSeq_cons_destroy, destroyedSeq_cons_create,
                       destroyedSeq_cons_destroy, createdSeq_nil, destroyedSeq_nil,
                       createdSeq_map_create, destroyedSeq_map_create, createdSeq_map_destroy,
                       destroyedSeq_map_destroy, List.append_nil, List.nil_append,
                       ← List.range_eq_range']
            rw [← Multiset.coe_eq_coe]
            simp only [← Multiset.cons_coe, ← Multiset.coe_add, Multiset.coe_reverse,
                       ← Multiset.singleton_add]
            abel
          · simp only [createdSeq_append, destroyedSeq_append, coreCreate_seq,
                       syncDestroy_seq, createdSeq_coreCreate_nodestroy, syncDestroy_nocreate,
                       createdSeq_cons_create, createdSeq_cons_destroy, destroyedSeq_cons_create,
                       destroyedSeq_cons_destroy, createdSeq_nil, destroyedSeq_nil,
                       createdSeq_map_create, destroyedSeq_map_create, createdSeq_map_destroy,
                       destroyedSeq_map_destroy, List.append_nil, List.nil_append,
                       ← List.range_eq_range']
            obtain ⟨m, hm⟩ := Nat.exists_eq_succ_of_ne_zero hic
            rw [hm]
            simp only [List.map_append, List.map_reverse,
                       map_compOf_range_chain Res.framebuffer (fun i => rfl),
                       map_compOf_range_chain Res.view (fun i => rfl),
                       List.map_cons, List.map_nil, compOf, syncRes,
                       apply_ite (List.map compOf), Nat.succ_eq_add_one]
            simpa using collapse_rpfail_block env.createPoolOk env.createSemAcquireOk
              env.createSemRenderOk env.createFenceOk m
        · intro hcore
          simp [coreThroughRpOk, hRP'] at hcore
        · intro hpart
          simp [chainPartialEnv, hI, hS, hP, hD, hW, hH, hSW, hv, hf, hcb] at hpart
    · have hmid := createRes_chainPartial env hI hS hP hD hW hH hSW hfull
      refine ⟨?_, ?_, ?_⟩
      · intro hclean _
        exfalso
        apply hfull
        simp [chainCleanEnv, hW, hH, hSW] at hclean
        tauto
      · intro hcore
        exfalso
        apply hfull
        simp [coreThroughRpOk] at hcore
        tauto
      · intro _
        refine ⟨by rw [hmid.1]; norm_num [FM_E_DEVICE, FM_OK],
                hmid.2.2.2.1, hmid.2.2.2.2, ?_⟩
        intro hperm
        exact hmid.2.2.2.2 (hperm.mem_iff.mpr hmid.2.2.2.1)

theorem create_device_contract_witness :
    CreateContract envAllOk ∧ CreateContract { envAllOk with viewFail := some 0 } :=
  ⟨create_device_contract envAllOk,
   create_device_contract { envAllOk with viewFail := some 0 }⟩
